import Mathlib

/-!
# Zaraz accessors of cloudflare-go (`zaraz.go`)

A shallow embedding of the nine Zaraz operations and of `getEndpointVersion`.

* Go strings and byte slices are sequences of bytes (`List UInt8`); the conversion
  `string(b)` keeps the bytes.
* A Go function returning `(T, error)` returns a pair `T × Option GoError`
  (`none` is the nil error).
* The request executor `api.makeRequestContext`, the package constants
  `ErrMissingZoneID` and `errUnmarshalError`, and `json.Unmarshal` are declared
  outside `zaraz.go`; they are parameters of the development.
* Calls of the executor are observable: the world carries the executor's own state
  and the list of the requests issued so far.
-/

namespace Zaraz

/-! ## Go values -/

/-- A Go `string`: a sequence of bytes. -/
abbrev GoString := List UInt8

/-- A Go `[]byte`; the nil slice and the empty slice are both the empty sequence. -/
abbrev Bytes := List UInt8

/-- The bytes of a string literal of the source (UTF-8). -/
def lit (s : String) : GoString := s.data.flatMap String.utf8EncodeChar

/-- The conversion `string(b)` of a byte slice: the same bytes. -/
def string (b : Bytes) : GoString := b

/-- A Go map with string keys: the nil map, or a map value with its entries.
`GoMap.mk []` is the composite literal `T{}`, `GoMap.nil` the zero value of `var m T`. -/
inductive GoMap (Any : Type) where
  | nil
  | mk (entries : List (GoString × Any))
  deriving DecidableEq, Repr

/-- Number of entries, Go's `len(m)`. -/
def GoMap.len {Any : Type} : GoMap Any → Nat
  | .nil => 0
  | .mk entries => entries.length

/-- A Go slice: the nil slice, or a slice value with its elements.
`GoSlice.mk []` is the composite literal `[]T{}`. -/
inductive GoSlice (α : Type) where
  | nil
  | mk (elems : List α)
  deriving DecidableEq, Repr

/-- The elements of a slice in order. -/
def GoSlice.toList {α : Type} : GoSlice α → List α
  | .nil => []
  | .mk elems => elems

/-- Go's `len(s)`. -/
def GoSlice.len {α : Type} (s : GoSlice α) : Nat := s.toList.length

/-- A Go `error` value that is not nil. `leaf` is an error without `Unwrap`; its `kind`
tells apart error values that carry the same text (different types or variables).
`wrapError` is the value `fmt.Errorf` builds for a format with one `%w`. -/
inductive GoError where
  | leaf (kind : Nat) (msg : GoString)
  | wrapError (msg : GoString) (err : GoError)
  deriving DecidableEq, Repr

/-- The method `Error()`. -/
def GoError.Error : GoError → GoString
  | .leaf _ msg => msg
  | .wrapError msg _ => msg

/-- The method `Unwrap()`, `none` where the error wraps nothing. -/
def GoError.Unwrap : GoError → Option GoError
  | .leaf _ _ => none
  | .wrapError _ err => some err

/-! ## The fragment of package `fmt` used by `zaraz.go` -/

/-- An operand of `fmt.Sprintf` or `fmt.Errorf`. -/
inductive Operand where
  | str (s : GoString)
  | int64 (n : Int)
  | err (e : GoError)

/-- Signed decimal rendering of an integer, what the verb `%d` prints. -/
def formatInt (n : Int) : GoString :=
  if n < 0 then lit "-" ++ lit (Nat.repr n.natAbs) else lit (Nat.repr n.toNat)

/-- The formatting loop of `fmt` for the verbs `%s` (string operand), `%d` (integer
operand), `%w` (error operand, only with `wrapErrs`) and `%%`. The result is the text
and the operands of `%w` in order. Everything else (another verb, a verb whose operand
is missing or of another type, operands left over) makes `fmt` print a `%!` diagnostic;
that is outside the fragment and gives `none`. -/
def doPrintf (wrapErrs : Bool) : List Char → List Operand → Option (GoString × List GoError)
  | [], [] => some ([], [])
  | [], _ :: _ => none
  | '%' :: '%' :: rest, args =>
    (doPrintf wrapErrs rest args).map fun (out, ws) => (lit "%" ++ out, ws)
  | '%' :: 's' :: rest, .str s :: args =>
    (doPrintf wrapErrs rest args).map fun (out, ws) => (s ++ out, ws)
  | '%' :: 'd' :: rest, .int64 n :: args =>
    (doPrintf wrapErrs rest args).map fun (out, ws) => (formatInt n ++ out, ws)
  | '%' :: 'w' :: rest, .err e :: args =>
    if wrapErrs then
      (doPrintf wrapErrs rest args).map fun (out, ws) => (e.Error ++ out, e :: ws)
    else none
  | '%' :: _, _ => none
  | c :: rest, args =>
    (doPrintf wrapErrs rest args).map fun (out, ws) => (String.utf8EncodeChar c ++ out, ws)

/-- The function `fmt.Sprintf` on the fragment of `doPrintf`. -/
def Sprintf (format : String) (args : List Operand) : Option GoString :=
  (doPrintf false format.data args).map Prod.fst

/-- The function `fmt.Errorf` for a format with exactly one `%w`: the error whose text
is the formatted string and which wraps the operand of `%w`. -/
def Errorf (format : String) (args : List Operand) : Option GoError :=
  match doPrintf true format.data args with
  | some (msg, [e]) => some (GoError.wrapError msg e)
  | _ => none

/-! ## Declarations of `zaraz.go` -/

/-- The constant `http.MethodGet`. -/
def MethodGet : GoString := lit "GET"

/-- The constant `http.MethodPut`. -/
def MethodPut : GoString := lit "PUT"

/-- The constant `http.MethodPost`. -/
def MethodPost : GoString := lit "POST"

/-- The type `ZarazConfig = map[string]interface{}`; `Any` is the type of the values an
`interface{}` holds. -/
abbrev ZarazConfig (Any : Type) := GoMap Any

/-- The type `UpdateZarazConfigParams = map[string]interface{}`. -/
abbrev UpdateZarazConfigParams (Any : Type) := GoMap Any

/-- The struct `ZarazConfigRow`; `Time` stands for `time.Time`. -/
structure ZarazConfigRow (Time : Type) where
  ID : Int
  UserId : GoString
  Description : GoString
  CreatedAt : Time
  UpdatedAt : Time
  deriving DecidableEq, Repr

/-- The struct `GetZarazConfigHistoryResponse`. -/
structure GetZarazConfigHistoryResponse (Time : Type) where
  Data : GoSlice (ZarazConfigRow Time)
  Count : Int
  deriving DecidableEq, Repr

/-- The type `GetZarazConfigHistoryDiffResponse = map[string]interface{}`. -/
abbrev GetZarazConfigHistoryDiffResponse (Any : Type) := GoMap Any

/-- The function `getEndpointVersion`. -/
def getEndpointVersion (version : GoString) : GoString :=
  if version = lit "v2" then
    lit "settings/zaraz/v2"
  else
    lit "settings/zaraz"

/-! ## What `zaraz.go` uses and does not declare -/

/-- Modelled from the spec: the struct `ResourceContainer` is declared in another file
of the package; the operations read its field `Identifier` (the zone identifier) only. -/
structure ResourceContainer where
  Identifier : GoString
  deriving DecidableEq, Repr

/-- The argument `params interface{}` of the request executor, for the three kinds of
value `zaraz.go` passes: `nil`, a configuration map, a string. -/
inductive Body (Any : Type) where
  | nil
  | config (params : GoMap Any)
  | text (s : GoString)
  deriving DecidableEq, Repr

/-- One invocation of the request executor: its four arguments. -/
structure Request (Context Any : Type) where
  ctx : Context
  method : GoString
  uri : GoString
  params : Body Any
  deriving DecidableEq, Repr

/-- Modelled from the spec: the type `API` is declared in another file of the package.
The receiver `api *API` as far as the operations use it: the request executor behind
`api.makeRequestContext`, a function of the request and of the state of the executor
(network, server, test double) that answers with `([]byte, error)` and the next
state. -/
structure API (Context Any σ : Type) where
  exec : Request Context Any → σ → (Bytes × Option GoError) × σ

/-- The world an operation runs in: the state of the executor and the requests issued
so far, oldest first. -/
structure World (Context Any σ : Type) where
  state : σ
  calls : List (Request Context Any)

/-- Modelled from the spec: the method `api.makeRequestContext(ctx, method, uri, params)`
is declared in another file of the package. One invocation of the executor, recorded in
the world. -/
def API.makeRequestContext {Context Any σ : Type} (api : API Context Any σ) (ctx : Context)
    (method uri : GoString) (params : Body Any) (w : World Context Any σ) :
    (Bytes × Option GoError) × World Context Any σ :=
  let r : Request Context Any := { ctx := ctx, method := method, uri := uri, params := params }
  let (res, state) := api.exec r w.state
  (res, { state := state, calls := w.calls ++ [r] })

/-- Modelled from the spec: the package-level declarations the operations refer to and
`zaraz.go` does not hold, as parameters: the error variable `ErrMissingZoneID`, the
constant `errUnmarshalError`, and `json.Unmarshal` at the two target types.
`json.Unmarshal(data, &v)` takes the bytes and the value `v` holds before the call, and
gives the value `v` holds afterwards (which a failed decode may have filled in part) and
the error. -/
structure Package (Any Time : Type) where
  ErrMissingZoneID : GoError
  errUnmarshalError : GoString
  unmarshalConfig : Bytes → GoMap Any → GoMap Any × Option GoError
  unmarshalHistory : Bytes → GetZarazConfigHistoryResponse Time →
    GetZarazConfigHistoryResponse Time × Option GoError

/-! ## The operations -/

section Operations

variable {Context Any Time σ : Type}

/-- The method `GetZarazConfig`. -/
def GetZarazConfig (pkg : Package Any Time) (api : API Context Any σ) (ctx : Context)
    (rc : ResourceContainer) (w : World Context Any σ) :
    Option ((ZarazConfig Any × Option GoError) × World Context Any σ) :=
  if rc.Identifier = lit "" then
    some ((GoMap.mk [], some pkg.ErrMissingZoneID), w)
  else
    match Sprintf "/zones/%s/%s/config"
        [.str rc.Identifier, .str (getEndpointVersion (lit "v1"))] with
    | none => none
    | some uri =>
      match api.makeRequestContext ctx MethodGet uri Body.nil w with
      | ((_, some err), w) => some ((GoMap.mk [], some err), w)
      | ((res, none), w) =>
        match pkg.unmarshalConfig res GoMap.nil with
        | (_, some err) =>
          match Errorf "%s: %w" [.str pkg.errUnmarshalError, .err err] with
          | none => none
          | some wrapped => some ((GoMap.mk [], some wrapped), w)
        | (recordResp, none) => some ((recordResp, none), w)

/-- The method `UpdateZarazConfig`. -/
def UpdateZarazConfig (pkg : Package Any Time) (api : API Context Any σ) (ctx : Context)
    (rc : ResourceContainer) (params : UpdateZarazConfigParams Any) (w : World Context Any σ) :
    Option (Option GoError × World Context Any σ) :=
  if rc.Identifier = lit "" then
    some (some pkg.ErrMissingZoneID, w)
  else
    match Sprintf "/zones/%s/%s/config"
        [.str rc.Identifier, .str (getEndpointVersion (lit "v1"))] with
    | none => none
    | some uri =>
      match api.makeRequestContext ctx MethodPut uri (Body.config params) w with
      | ((_, some err), w) => some (some err, w)
      | ((_, none), w) => some (none, w)

/-- The method `GetZarazWorkflow`. -/
def GetZarazWorkflow (pkg : Package Any Time) (api : API Context Any σ) (ctx : Context)
    (rc : ResourceContainer) (w : World Context Any σ) :
    Option ((GoString × Option GoError) × World Context Any σ) :=
  if rc.Identifier = lit "" then
    some ((lit "", some pkg.ErrMissingZoneID), w)
  else
    match Sprintf "/zones/%s/%s/workflow"
        [.str rc.Identifier, .str (getEndpointVersion (lit "v1"))] with
    | none => none
    | some uri =>
      match api.makeRequestContext ctx MethodGet uri Body.nil w with
      | ((_, some err), w) => some ((lit "", some err), w)
      | ((workflow, none), w) => some ((string workflow, none), w)

/-- The method `UpdateZarazWorkflow`. -/
def UpdateZarazWorkflow (pkg : Package Any Time) (api : API Context Any σ) (ctx : Context)
    (rc : ResourceContainer) (workflowToUpdate : GoString) (w : World Context Any σ) :
    Option (Option GoError × World Context Any σ) :=
  if rc.Identifier = lit "" then
    some (some pkg.ErrMissingZoneID, w)
  else
    match Sprintf "/zones/%s/%s/workflow"
        [.str rc.Identifier, .str (getEndpointVersion (lit "v1"))] with
    | none => none
    | some uri =>
      match api.makeRequestContext ctx MethodPut uri (Body.text workflowToUpdate) w with
      | ((_, some err), w) => some (some err, w)
      | ((_, none), w) => some (none, w)

/-- The method `PublishZarazConfig`. -/
def PublishZarazConfig (pkg : Package Any Time) (api : API Context Any σ) (ctx : Context)
    (rc : ResourceContainer) (description : GoString) (w : World Context Any σ) :
    Option (Option GoError × World Context Any σ) :=
  if rc.Identifier = lit "" then
    some (some pkg.ErrMissingZoneID, w)
  else
    match Sprintf "/zones/%s/%s/publish"
        [.str rc.Identifier, .str (getEndpointVersion (lit "v1"))] with
    | none => none
    | some uri =>
      match api.makeRequestContext ctx MethodPost uri (Body.text description) w with
      | ((_, some err), w) => some (some err, w)
      | ((_, none), w) => some (none, w)

/-- The method `GetZarazConfigHistory`; `limit` and `offset` are `int64`. -/
def GetZarazConfigHistory (pkg : Package Any Time) (api : API Context Any σ) (ctx : Context)
    (rc : ResourceContainer) (limit offset : Int) (w : World Context Any σ) :
    Option ((GetZarazConfigHistoryResponse Time × Option GoError) × World Context Any σ) :=
  if rc.Identifier = lit "" then
    some (({ Data := GoSlice.mk [], Count := 0 }, some pkg.ErrMissingZoneID), w)
  else
    match Sprintf "/zones/%s/%s/history?limit=%d&offset=%d"
        [.str rc.Identifier, .str (getEndpointVersion (lit "v1")), .int64 limit,
          .int64 offset] with
    | none => none
    | some uri =>
      match api.makeRequestContext ctx MethodPost uri Body.nil w with
      | ((_, some err), w) => some (({ Data := GoSlice.mk [], Count := 0 }, some err), w)
      | ((res, none), w) =>
        match pkg.unmarshalHistory res { Data := GoSlice.nil, Count := 0 } with
        | (_, some err) =>
          match Errorf "%s: %w" [.str pkg.errUnmarshalError, .err err] with
          | none => none
          | some wrapped => some (({ Data := GoSlice.mk [], Count := 0 }, some wrapped), w)
        | (recordResp, none) => some ((recordResp, none), w)

/-- The method `GetZarazConfigHistoryDiff`; the body never reads `limit` and `offset`. -/
def GetZarazConfigHistoryDiff (pkg : Package Any Time) (api : API Context Any σ)
    (ctx : Context) (rc : ResourceContainer) (_limit _offset : Int) (configIds : GoString)
    (w : World Context Any σ) :
    Option ((GetZarazConfigHistoryDiffResponse Any × Option GoError) × World Context Any σ) :=
  if rc.Identifier = lit "" then
    some ((GoMap.mk [], some pkg.ErrMissingZoneID), w)
  else
    match Sprintf "/zones/%s/%s/history/configs?ids=%s"
        [.str rc.Identifier, .str (getEndpointVersion (lit "v1")), .str configIds] with
    | none => none
    | some uri =>
      match api.makeRequestContext ctx MethodPost uri Body.nil w with
      | ((_, some err), w) => some ((GoMap.mk [], some err), w)
      | ((res, none), w) =>
        match pkg.unmarshalConfig res GoMap.nil with
        | (_, some err) =>
          match Errorf "%s: %w" [.str pkg.errUnmarshalError, .err err] with
          | none => none
          | some wrapped => some ((GoMap.mk [], some wrapped), w)
        | (recordResp, none) => some ((recordResp, none), w)

/-- The method `GetDefaultZarazConfig`. -/
def GetDefaultZarazConfig (pkg : Package Any Time) (api : API Context Any σ) (ctx : Context)
    (rc : ResourceContainer) (w : World Context Any σ) :
    Option ((ZarazConfig Any × Option GoError) × World Context Any σ) :=
  if rc.Identifier = lit "" then
    some ((GoMap.mk [], some pkg.ErrMissingZoneID), w)
  else
    match Sprintf "/zones/%s/%s/default"
        [.str rc.Identifier, .str (getEndpointVersion (lit "v1"))] with
    | none => none
    | some uri =>
      match api.makeRequestContext ctx MethodGet uri Body.nil w with
      | ((_, some err), w) => some ((GoMap.mk [], some err), w)
      | ((res, none), w) =>
        match pkg.unmarshalConfig res GoMap.nil with
        | (_, some err) =>
          match Errorf "%s: %w" [.str pkg.errUnmarshalError, .err err] with
          | none => none
          | some wrapped => some ((GoMap.mk [], some wrapped), w)
        | (recordResp, none) => some ((recordResp, none), w)

/-- The method `ExportZarazConfig`. -/
def ExportZarazConfig (pkg : Package Any Time) (api : API Context Any σ) (ctx : Context)
    (rc : ResourceContainer) (w : World Context Any σ) :
    Option (Option GoError × World Context Any σ) :=
  if rc.Identifier = lit "" then
    some (some pkg.ErrMissingZoneID, w)
  else
    match Sprintf "/zones/%s/%s/export"
        [.str rc.Identifier, .str (getEndpointVersion (lit "v1"))] with
    | none => none
    | some uri =>
      match api.makeRequestContext ctx MethodGet uri Body.nil w with
      | ((_, some err), w) => some (some err, w)
      | ((res, none), w) =>
        match pkg.unmarshalConfig res GoMap.nil with
        | (_, some err) =>
          match Errorf "%s: %w" [.str pkg.errUnmarshalError, .err err] with
          | none => none
          | some wrapped => some (some wrapped, w)
        | (_, none) => some (none, w)

end Operations

/-! ## Statement vocabulary -/

section Vocabulary

variable {Context Any Time σ : Type}

/-- The run `run` of an operation, started in the world `w`, returned; it invoked the
executor exactly once, with the request `r`, in the state the executor had in `w`; the
executor answered `(b, err)`; the world afterwards holds the executor's next state and
the calls of `w` followed by `r` alone; and `P r b err a` holds of the request, the
answer and the values `a` the operation returned. -/
def RanOnce {α : Type} (api : API Context Any σ) (w : World Context Any σ)
    (run : Option (α × World Context Any σ))
    (P : Request Context Any → Bytes → Option GoError → α → Prop) : Prop :=
  ∃ r b err s a, api.exec r w.state = ((b, err), s) ∧
    run = some (a, { state := s, calls := w.calls ++ [r] }) ∧ P r b err a

/-- What an operation that decodes the response returns, as a function of the answer
`out` of the executor: `unm` is the decoder, `init` the value the target holds before
the decode, `zero` the value returned next to an error. -/
def afterDecode {α : Type} (marker : GoString) (unm : Bytes → α → α × Option GoError)
    (zero init : α) (out : Bytes × Option GoError) : α × Option GoError :=
  match out with
  | (_, some e) => (zero, some e)
  | (b, none) =>
    match unm b init with
    | (_, some p) => (zero, some (GoError.wrapError (marker ++ lit ": " ++ p.Error) p))
    | (v, none) => (v, none)

/-- What an operation that only sends returns: the error of the executor. -/
def afterSend (out : Bytes × Option GoError) : Option GoError := out.2

/-- What an operation that returns the response as text returns, as a function of the
answer `out` of the executor. -/
def afterText (out : Bytes × Option GoError) : GoString × Option GoError :=
  match out with
  | (_, some e) => (lit "", some e)
  | (b, none) => (string b, none)

end Vocabulary

/-! ## Test doubles

Concrete executors, decoders and package constants, used to run the operations. -/

section Doubles

/-- A zone identifier. -/
def zoneABC : ResourceContainer := { Identifier := lit "abc123" }

/-- The resource container without a zone identifier. -/
def zoneNone : ResourceContainer := { Identifier := lit "" }

/-- An executor that answers every request with the bytes `b` and no error, and counts
the requests it has served. -/
def okAPI (b : Bytes) : API Nat GoString Nat where
  exec := fun _ n => ((b, none), n + 1)

/-- An executor that fails every request with the error `e`, and counts the requests it
has served. -/
def failAPI (e : GoError) : API Nat GoString Nat where
  exec := fun _ n => (([], some e), n + 1)

/-- The world before any request: a fresh executor, no call yet. -/
def world0 : World Nat GoString Nat := { state := 0, calls := [] }

/-- A transport error. -/
def errTimeout : GoError := GoError.leaf 10 (lit "HTTP request failed: timeout")

/-- The error a decoder reports for a truncated document. -/
def errTruncated : GoError := GoError.leaf 20 (lit "unexpected end of JSON input")

/-- A configuration document on the wire. -/
def configPayload : Bytes := lit "\x7b\"debugKey\":\"k1\",\"zarazVersion\":\"43\"\x7d"

/-- The document `configPayload` encodes. -/
def configDoc : ZarazConfig GoString :=
  GoMap.mk [(lit "debugKey", lit "k1"), (lit "zarazVersion", lit "43")]

/-- A truncated configuration document. -/
def truncatedPayload : Bytes := lit "\x7b\"debugKey\":\"k1\",\"zarazVer"

/-- A history page on the wire: three entries, total three. -/
def historyPayload : Bytes :=
  lit "\x7b\"data\":[\x7b\"id\":12\x7d,\x7b\"id\":11\x7d,\x7b\"id\":10\x7d],\"count\":3\x7d"

/-- The page `historyPayload` encodes; times are seconds. -/
def historyPage : GetZarazConfigHistoryResponse Nat :=
  { Data := GoSlice.mk
      [{ ID := 12, UserId := [], Description := [], CreatedAt := 0, UpdatedAt := 0 },
       { ID := 11, UserId := [], Description := [], CreatedAt := 0, UpdatedAt := 0 },
       { ID := 10, UserId := [], Description := [], CreatedAt := 0, UpdatedAt := 0 }],
    Count := 3 }

/-- A decoder double for configuration maps: it decodes `configPayload`, and rejects
everything else after having filled in one entry. -/
def stubUnmarshalConfig (b : Bytes) (_v : GoMap GoString) : GoMap GoString × Option GoError :=
  if b = configPayload then (configDoc, none)
  else (GoMap.mk [(lit "debugKey", lit "k1")], some errTruncated)

/-- A decoder double for history pages: it decodes `historyPayload`, and rejects
everything else after having filled in the count. -/
def stubUnmarshalHistory (b : Bytes) (v : GetZarazConfigHistoryResponse Nat) :
    GetZarazConfigHistoryResponse Nat × Option GoError :=
  if b = historyPayload then (historyPage, none)
  else ({ v with Count := 9 }, some errTruncated)

/-- Package constants and decoder doubles. -/
def testPkg : Package GoString Nat where
  ErrMissingZoneID := GoError.leaf 1 (lit "zone ID is required")
  errUnmarshalError := lit "error unmarshalling the JSON response"
  unmarshalConfig := stubUnmarshalConfig
  unmarshalHistory := stubUnmarshalHistory

/-- The error `fmt.Errorf("%s: %w", errUnmarshalError, errTruncated)` builds; an executor
can fail with an error that has this text and wraps this cause. -/
def errMarked : GoError :=
  GoError.wrapError (lit "error unmarshalling the JSON response: unexpected end of JSON input")
    errTruncated

end Doubles

/-! ## Lemmas on the formatting fragment -/

theorem lit_empty : lit "" = [] := rfl

theorem uri_of_suffix (id : GoString) (fmt suffix : String)
    (h : ∀ a b : GoString, Sprintf fmt [.str a, .str b]
      = some (lit "/zones/" ++ (a ++ (lit "/" ++ (b ++ (lit suffix ++ []))))))
    (h2 : lit "/" ++ (getEndpointVersion (lit "v1") ++ lit suffix)
      = lit "/settings/zaraz" ++ lit suffix) :
    Sprintf fmt [.str id, .str (getEndpointVersion (lit "v1"))]
      = some (lit "/zones/" ++ id ++ lit "/settings/zaraz" ++ lit suffix) := by
  rw [h, List.append_nil, List.append_assoc, List.append_assoc, ← h2]

theorem uri_config (id : GoString) :
    Sprintf "/zones/%s/%s/config" [.str id, .str (getEndpointVersion (lit "v1"))]
      = some (lit "/zones/" ++ id ++ lit "/settings/zaraz" ++ lit "/config") :=
  uri_of_suffix id _ "/config" (fun _ _ => rfl) (by decide)

theorem uri_workflow (id : GoString) :
    Sprintf "/zones/%s/%s/workflow" [.str id, .str (getEndpointVersion (lit "v1"))]
      = some (lit "/zones/" ++ id ++ lit "/settings/zaraz" ++ lit "/workflow") :=
  uri_of_suffix id _ "/workflow" (fun _ _ => rfl) (by decide)

theorem uri_publish (id : GoString) :
    Sprintf "/zones/%s/%s/publish" [.str id, .str (getEndpointVersion (lit "v1"))]
      = some (lit "/zones/" ++ id ++ lit "/settings/zaraz" ++ lit "/publish") :=
  uri_of_suffix id _ "/publish" (fun _ _ => rfl) (by decide)

theorem uri_default (id : GoString) :
    Sprintf "/zones/%s/%s/default" [.str id, .str (getEndpointVersion (lit "v1"))]
      = some (lit "/zones/" ++ id ++ lit "/settings/zaraz" ++ lit "/default") :=
  uri_of_suffix id _ "/default" (fun _ _ => rfl) (by decide)

theorem uri_export (id : GoString) :
    Sprintf "/zones/%s/%s/export" [.str id, .str (getEndpointVersion (lit "v1"))]
      = some (lit "/zones/" ++ id ++ lit "/settings/zaraz" ++ lit "/export") :=
  uri_of_suffix id _ "/export" (fun _ _ => rfl) (by decide)

theorem uri_history (id : GoString) (limit offset : Int) :
    Sprintf "/zones/%s/%s/history?limit=%d&offset=%d"
        [.str id, .str (getEndpointVersion (lit "v1")), .int64 limit, .int64 offset]
      = some (lit "/zones/" ++ id ++ lit "/settings/zaraz/history?limit=" ++ formatInt limit
          ++ lit "&offset=" ++ formatInt offset) := by
  have h : Sprintf "/zones/%s/%s/history?limit=%d&offset=%d"
        [.str id, .str (getEndpointVersion (lit "v1")), .int64 limit, .int64 offset]
      = some (lit "/zones/" ++ (id ++ (lit "/settings/zaraz/history?limit=" ++
          (formatInt limit ++ (lit "&offset=" ++ (formatInt offset ++ [])))))) := rfl
  rw [h]
  simp only [List.append_assoc, List.append_nil]

theorem uri_history_configs (id configIds : GoString) :
    Sprintf "/zones/%s/%s/history/configs?ids=%s"
        [.str id, .str (getEndpointVersion (lit "v1")), .str configIds]
      = some (lit "/zones/" ++ id ++ lit "/settings/zaraz/history/configs?ids="
          ++ configIds) := by
  have h : Sprintf "/zones/%s/%s/history/configs?ids=%s"
        [.str id, .str (getEndpointVersion (lit "v1")), .str configIds]
      = some (lit "/zones/" ++ (id ++ (lit "/settings/zaraz/history/configs?ids=" ++
          (configIds ++ [])))) := rfl
  rw [h]
  simp only [List.append_assoc, List.append_nil]

theorem errorf_wrap (marker : GoString) (p : GoError) :
    Errorf "%s: %w" [.str marker, .err p]
      = some (GoError.wrapError (marker ++ lit ": " ++ p.Error) p) := by
  have h : doPrintf true "%s: %w".data [.str marker, .err p]
      = some (marker ++ (lit ": " ++ (p.Error ++ [])), [p]) := rfl
  simp only [Errorf, h, List.append_assoc, List.append_nil]

/-! ## What each operation does with a zone identifier that is not empty -/

section Runs

variable {Context Any Time σ : Type}

theorem makeRequestContext_eq (api : API Context Any σ) (ctx : Context) (method uri : GoString)
    (params : Body Any) (w : World Context Any σ) :
    api.makeRequestContext ctx method uri params w =
      ((api.exec ⟨ctx, method, uri, params⟩ w.state).1,
        ⟨(api.exec ⟨ctx, method, uri, params⟩ w.state).2,
          w.calls ++ [⟨ctx, method, uri, params⟩]⟩) := rfl

theorem GetZarazConfig_run (pkg : Package Any Time) (api : API Context Any σ) (ctx : Context)
    (rc : ResourceContainer) (w : World Context Any σ) (h : rc.Identifier ≠ [])
    (r : Request Context Any) (hr : r = ⟨ctx, MethodGet,
      lit "/zones/" ++ rc.Identifier ++ lit "/settings/zaraz" ++ lit "/config", Body.nil⟩) :
    GetZarazConfig pkg api ctx rc w =
      some (afterDecode pkg.errUnmarshalError pkg.unmarshalConfig (GoMap.mk []) GoMap.nil
          (api.exec r w.state).1,
        ⟨(api.exec r w.state).2, w.calls ++ [r]⟩) := by
  unfold GetZarazConfig
  rw [lit_empty, if_neg h, uri_config]
  simp only [makeRequestContext_eq, ← hr]
  unfold afterDecode
  rcases api.exec r w.state with ⟨⟨b, _ | e⟩, s⟩
  · simp only
    rcases pkg.unmarshalConfig b GoMap.nil with ⟨v, _ | p⟩
    · rfl
    · simp only [errorf_wrap]
  · rfl

theorem UpdateZarazConfig_run (pkg : Package Any Time) (api : API Context Any σ) (ctx : Context)
    (rc : ResourceContainer) (params : UpdateZarazConfigParams Any) (w : World Context Any σ) (h : rc.Identifier ≠ [])
    (r : Request Context Any) (hr : r = ⟨ctx, MethodPut,
      lit "/zones/" ++ rc.Identifier ++ lit "/settings/zaraz" ++ lit "/config", Body.config params⟩) :
    UpdateZarazConfig pkg api ctx rc params w =
      some (afterSend (api.exec r w.state).1,
        ⟨(api.exec r w.state).2, w.calls ++ [r]⟩) := by
  unfold UpdateZarazConfig
  rw [lit_empty, if_neg h, uri_config]
  simp only [makeRequestContext_eq, ← hr]
  unfold afterSend
  rcases api.exec r w.state with ⟨⟨b, _ | e⟩, s⟩ <;> rfl

theorem GetZarazWorkflow_run (pkg : Package Any Time) (api : API Context Any σ) (ctx : Context)
    (rc : ResourceContainer) (w : World Context Any σ) (h : rc.Identifier ≠ [])
    (r : Request Context Any) (hr : r = ⟨ctx, MethodGet,
      lit "/zones/" ++ rc.Identifier ++ lit "/settings/zaraz" ++ lit "/workflow", Body.nil⟩) :
    GetZarazWorkflow pkg api ctx rc w =
      some (afterText (api.exec r w.state).1,
        ⟨(api.exec r w.state).2, w.calls ++ [r]⟩) := by
  unfold GetZarazWorkflow
  rw [lit_empty, if_neg h, uri_workflow]
  simp only [makeRequestContext_eq, ← hr]
  unfold afterText
  rcases api.exec r w.state with ⟨⟨b, _ | e⟩, s⟩ <;> rfl

theorem UpdateZarazWorkflow_run (pkg : Package Any Time) (api : API Context Any σ) (ctx : Context)
    (rc : ResourceContainer) (workflowToUpdate : GoString) (w : World Context Any σ) (h : rc.Identifier ≠ [])
    (r : Request Context Any) (hr : r = ⟨ctx, MethodPut,
      lit "/zones/" ++ rc.Identifier ++ lit "/settings/zaraz" ++ lit "/workflow", Body.text workflowToUpdate⟩) :
    UpdateZarazWorkflow pkg api ctx rc workflowToUpdate w =
      some (afterSend (api.exec r w.state).1,
        ⟨(api.exec r w.state).2, w.calls ++ [r]⟩) := by
  unfold UpdateZarazWorkflow
  rw [lit_empty, if_neg h, uri_workflow]
  simp only [makeRequestContext_eq, ← hr]
  unfold afterSend
  rcases api.exec r w.state with ⟨⟨b, _ | e⟩, s⟩ <;> rfl

theorem PublishZarazConfig_run (pkg : Package Any Time) (api : API Context Any σ) (ctx : Context)
    (rc : ResourceContainer) (description : GoString) (w : World Context Any σ) (h : rc.Identifier ≠ [])
    (r : Request Context Any) (hr : r = ⟨ctx, MethodPost,
      lit "/zones/" ++ rc.Identifier ++ lit "/settings/zaraz" ++ lit "/publish", Body.text description⟩) :
    PublishZarazConfig pkg api ctx rc description w =
      some (afterSend (api.exec r w.state).1,
        ⟨(api.exec r w.state).2, w.calls ++ [r]⟩) := by
  unfold PublishZarazConfig
  rw [lit_empty, if_neg h, uri_publish]
  simp only [makeRequestContext_eq, ← hr]
  unfold afterSend
  rcases api.exec r w.state with ⟨⟨b, _ | e⟩, s⟩ <;> rfl

theorem GetZarazConfigHistory_run (pkg : Package Any Time) (api : API Context Any σ) (ctx : Context)
    (rc : ResourceContainer) (limit offset : Int) (w : World Context Any σ) (h : rc.Identifier ≠ [])
    (r : Request Context Any) (hr : r = ⟨ctx, MethodPost,
      lit "/zones/" ++ rc.Identifier ++ lit "/settings/zaraz/history?limit=" ++ formatInt limit
        ++ lit "&offset=" ++ formatInt offset, Body.nil⟩) :
    GetZarazConfigHistory pkg api ctx rc limit offset w =
      some (afterDecode pkg.errUnmarshalError pkg.unmarshalHistory
          { Data := GoSlice.mk [], Count := 0 } { Data := GoSlice.nil, Count := 0 }
          (api.exec r w.state).1,
        ⟨(api.exec r w.state).2, w.calls ++ [r]⟩) := by
  unfold GetZarazConfigHistory
  rw [lit_empty, if_neg h, uri_history]
  simp only [makeRequestContext_eq, ← hr]
  unfold afterDecode
  rcases api.exec r w.state with ⟨⟨b, _ | e⟩, s⟩
  · simp only
    rcases pkg.unmarshalHistory b { Data := GoSlice.nil, Count := 0 } with ⟨v, _ | p⟩
    · rfl
    · simp only [errorf_wrap]
  · rfl

theorem GetZarazConfigHistoryDiff_run (pkg : Package Any Time) (api : API Context Any σ) (ctx : Context)
    (rc : ResourceContainer) (limit offset : Int) (configIds : GoString) (w : World Context Any σ) (h : rc.Identifier ≠ [])
    (r : Request Context Any) (hr : r = ⟨ctx, MethodPost,
      lit "/zones/" ++ rc.Identifier ++ lit "/settings/zaraz/history/configs?ids=" ++ configIds, Body.nil⟩) :
    GetZarazConfigHistoryDiff pkg api ctx rc limit offset configIds w =
      some (afterDecode pkg.errUnmarshalError pkg.unmarshalConfig (GoMap.mk []) GoMap.nil
          (api.exec r w.state).1,
        ⟨(api.exec r w.state).2, w.calls ++ [r]⟩) := by
  unfold GetZarazConfigHistoryDiff
  rw [lit_empty, if_neg h, uri_history_configs]
  simp only [makeRequestContext_eq, ← hr]
  unfold afterDecode
  rcases api.exec r w.state with ⟨⟨b, _ | e⟩, s⟩
  · simp only
    rcases pkg.unmarshalConfig b GoMap.nil with ⟨v, _ | p⟩
    · rfl
    · simp only [errorf_wrap]
  · rfl

theorem GetDefaultZarazConfig_run (pkg : Package Any Time) (api : API Context Any σ) (ctx : Context)
    (rc : ResourceContainer) (w : World Context Any σ) (h : rc.Identifier ≠ [])
    (r : Request Context Any) (hr : r = ⟨ctx, MethodGet,
      lit "/zones/" ++ rc.Identifier ++ lit "/settings/zaraz" ++ lit "/default", Body.nil⟩) :
    GetDefaultZarazConfig pkg api ctx rc w =
      some (afterDecode pkg.errUnmarshalError pkg.unmarshalConfig (GoMap.mk []) GoMap.nil
          (api.exec r w.state).1,
        ⟨(api.exec r w.state).2, w.calls ++ [r]⟩) := by
  unfold GetDefaultZarazConfig
  rw [lit_empty, if_neg h, uri_default]
  simp only [makeRequestContext_eq, ← hr]
  unfold afterDecode
  rcases api.exec r w.state with ⟨⟨b, _ | e⟩, s⟩
  · simp only
    rcases pkg.unmarshalConfig b GoMap.nil with ⟨v, _ | p⟩
    · rfl
    · simp only [errorf_wrap]
  · rfl

theorem ExportZarazConfig_run (pkg : Package Any Time) (api : API Context Any σ) (ctx : Context)
    (rc : ResourceContainer) (w : World Context Any σ) (h : rc.Identifier ≠ [])
    (r : Request Context Any) (hr : r = ⟨ctx, MethodGet,
      lit "/zones/" ++ rc.Identifier ++ lit "/settings/zaraz" ++ lit "/export", Body.nil⟩) :
    ExportZarazConfig pkg api ctx rc w =
      some ((afterDecode pkg.errUnmarshalError pkg.unmarshalConfig (GoMap.mk []) GoMap.nil
          (api.exec r w.state).1).2,
        ⟨(api.exec r w.state).2, w.calls ++ [r]⟩) := by
  unfold ExportZarazConfig
  rw [lit_empty, if_neg h, uri_export]
  simp only [makeRequestContext_eq, ← hr]
  unfold afterDecode
  rcases api.exec r w.state with ⟨⟨b, _ | e⟩, s⟩
  · simp only
    rcases pkg.unmarshalConfig b GoMap.nil with ⟨v, _ | p⟩
    · rfl
    · simp only [errorf_wrap]
  · rfl

end Runs

/-! ## Lemmas on the statement vocabulary -/

section VocabularyLemmas

variable {Context Any Time σ : Type}

theorem ranOnce_of_run {α : Type} (api : API Context Any σ) (w : World Context Any σ)
    (run : Option (α × World Context Any σ)) (r : Request Context Any)
    (f : Bytes × Option GoError → α)
    (P : Request Context Any → Bytes → Option GoError → α → Prop)
    (hrun : run = some (f (api.exec r w.state).1,
      ⟨(api.exec r w.state).2, w.calls ++ [r]⟩))
    (hP : ∀ b err, P r b err (f (b, err))) : RanOnce api w run P :=
  ⟨r, (api.exec r w.state).1.1, (api.exec r w.state).1.2, (api.exec r w.state).2,
    f (api.exec r w.state).1, rfl, hrun, hP _ _⟩

theorem afterDecode_fail {α : Type} (marker : GoString)
    (unm : Bytes → α → α × Option GoError) (zero init : α) (b : Bytes) (e : GoError) :
    afterDecode marker unm zero init (b, some e) = (zero, some e) := rfl

theorem afterDecode_ok {α : Type} (marker : GoString)
    (unm : Bytes → α → α × Option GoError) (zero init : α) (b : Bytes) (v : α)
    (h : unm b init = (v, none)) :
    afterDecode marker unm zero init (b, none) = (v, none) := by
  simp only [afterDecode, h]

theorem afterDecode_bad {α : Type} (marker : GoString)
    (unm : Bytes → α → α × Option GoError) (zero init : α) (b : Bytes) (v : α) (p : GoError)
    (h : unm b init = (v, some p)) :
    afterDecode marker unm zero init (b, none)
      = (zero, some (GoError.wrapError (marker ++ lit ": " ++ p.Error) p)) := by
  simp only [afterDecode, h]

end VocabularyLemmas

/-! ## The claims -/

section Claims

set_option maxRecDepth 8192

variable {Context Any Time σ : Type}

/-- C1. Called with an empty zone identifier, each of the nine operations returns the
error `ErrMissingZoneID` and leaves the world as it was: the executor is invoked zero
times (no call is added, the state of the executor is untouched), whatever the other
arguments and the executor are. -/
theorem empty_zone_id_is_refused_without_request (pkg : Package Any Time)
    (api : API Context Any σ) (ctx : Context) (rc : ResourceContainer)
    (w : World Context Any σ) (params : UpdateZarazConfigParams Any)
    (workflowToUpdate description configIds : GoString) (limit offset : Int)
    (h : rc.Identifier = lit "") :
    GetZarazConfig pkg api ctx rc w = some ((GoMap.mk [], some pkg.ErrMissingZoneID), w) ∧
    UpdateZarazConfig pkg api ctx rc params w = some (some pkg.ErrMissingZoneID, w) ∧
    GetZarazWorkflow pkg api ctx rc w = some ((lit "", some pkg.ErrMissingZoneID), w) ∧
    UpdateZarazWorkflow pkg api ctx rc workflowToUpdate w
      = some (some pkg.ErrMissingZoneID, w) ∧
    PublishZarazConfig pkg api ctx rc description w = some (some pkg.ErrMissingZoneID, w) ∧
    GetZarazConfigHistory pkg api ctx rc limit offset w
      = some (({ Data := GoSlice.mk [], Count := 0 }, some pkg.ErrMissingZoneID), w) ∧
    GetZarazConfigHistoryDiff pkg api ctx rc limit offset configIds w
      = some ((GoMap.mk [], some pkg.ErrMissingZoneID), w) ∧
    GetDefaultZarazConfig pkg api ctx rc w
      = some ((GoMap.mk [], some pkg.ErrMissingZoneID), w) ∧
    ExportZarazConfig pkg api ctx rc w = some (some pkg.ErrMissingZoneID, w) := by
  refine ⟨?_, ?_, ?_, ?_, ?_, ?_, ?_, ?_, ?_⟩
  · unfold GetZarazConfig; rw [if_pos h]
  · unfold UpdateZarazConfig; rw [if_pos h]
  · unfold GetZarazWorkflow; rw [if_pos h]
  · unfold UpdateZarazWorkflow; rw [if_pos h]
  · unfold PublishZarazConfig; rw [if_pos h]
  · unfold GetZarazConfigHistory; rw [if_pos h]
  · unfold GetZarazConfigHistoryDiff; rw [if_pos h]
  · unfold GetDefaultZarazConfig; rw [if_pos h]
  · unfold ExportZarazConfig; rw [if_pos h]

/-- Witness of C1: the nine operations on the container without zone identifier, with an
executor that would answer and count every request; no request is counted. -/
theorem empty_zone_id_is_refused_without_request_witness :
    zoneNone.Identifier = lit "" ∧
    (GetZarazConfig testPkg (okAPI configPayload) 7 zoneNone world0
        = some ((GoMap.mk [], some testPkg.ErrMissingZoneID), world0) ∧
      UpdateZarazConfig testPkg (okAPI configPayload) 7 zoneNone configDoc world0
        = some (some testPkg.ErrMissingZoneID, world0) ∧
      GetZarazWorkflow testPkg (okAPI configPayload) 7 zoneNone world0
        = some ((lit "", some testPkg.ErrMissingZoneID), world0) ∧
      UpdateZarazWorkflow testPkg (okAPI configPayload) 7 zoneNone (lit "steps") world0
        = some (some testPkg.ErrMissingZoneID, world0) ∧
      PublishZarazConfig testPkg (okAPI configPayload) 7 zoneNone (lit "nightly release") world0
        = some (some testPkg.ErrMissingZoneID, world0) ∧
      GetZarazConfigHistory testPkg (okAPI configPayload) 7 zoneNone 2 0 world0
        = some (({ Data := GoSlice.mk [], Count := 0 }, some testPkg.ErrMissingZoneID), world0) ∧
      GetZarazConfigHistoryDiff testPkg (okAPI configPayload) 7 zoneNone 2 0 (lit "11,12") world0
        = some ((GoMap.mk [], some testPkg.ErrMissingZoneID), world0) ∧
      GetDefaultZarazConfig testPkg (okAPI configPayload) 7 zoneNone world0
        = some ((GoMap.mk [], some testPkg.ErrMissingZoneID), world0) ∧
      ExportZarazConfig testPkg (okAPI configPayload) 7 zoneNone world0
        = some (some testPkg.ErrMissingZoneID, world0)) :=
  ⟨rfl, empty_zone_id_is_refused_without_request testPkg (okAPI configPayload) 7 zoneNone
    world0 configDoc (lit "steps") (lit "nightly release") (lit "11,12") 2 0 rfl⟩

/-- C2. Called with a zone identifier that is not empty, each of the nine operations
invokes the executor exactly once; if that invocation fails with the error `e`, the
operation returns `e` itself, next to the empty value of its result type: the empty map
for `GetZarazConfig`, `GetDefaultZarazConfig` and `GetZarazConfigHistoryDiff`, the empty
string for `GetZarazWorkflow`, the page with `Count` 0 and the empty `Data` for
`GetZarazConfigHistory`. -/
theorem executor_error_is_returned_unchanged (pkg : Package Any Time)
    (api : API Context Any σ) (ctx : Context) (rc : ResourceContainer)
    (w : World Context Any σ) (params : UpdateZarazConfigParams Any)
    (workflowToUpdate description configIds : GoString) (limit offset : Int)
    (h : rc.Identifier ≠ lit "") :
    RanOnce api w (GetZarazConfig pkg api ctx rc w)
      (fun _ _ err a => ∀ e, err = some e → a = (GoMap.mk [], some e) ∧ a.1.len = 0) ∧
    RanOnce api w (UpdateZarazConfig pkg api ctx rc params w)
      (fun _ _ err a => ∀ e, err = some e → a = some e) ∧
    RanOnce api w (GetZarazWorkflow pkg api ctx rc w)
      (fun _ _ err a => ∀ e, err = some e → a = ([], some e)) ∧
    RanOnce api w (UpdateZarazWorkflow pkg api ctx rc workflowToUpdate w)
      (fun _ _ err a => ∀ e, err = some e → a = some e) ∧
    RanOnce api w (PublishZarazConfig pkg api ctx rc description w)
      (fun _ _ err a => ∀ e, err = some e → a = some e) ∧
    RanOnce api w (GetZarazConfigHistory pkg api ctx rc limit offset w)
      (fun _ _ err a => ∀ e, err = some e →
        a = ({ Data := GoSlice.mk [], Count := 0 }, some e) ∧ a.1.Data.len = 0) ∧
    RanOnce api w (GetZarazConfigHistoryDiff pkg api ctx rc limit offset configIds w)
      (fun _ _ err a => ∀ e, err = some e → a = (GoMap.mk [], some e) ∧ a.1.len = 0) ∧
    RanOnce api w (GetDefaultZarazConfig pkg api ctx rc w)
      (fun _ _ err a => ∀ e, err = some e → a = (GoMap.mk [], some e) ∧ a.1.len = 0) ∧
    RanOnce api w (ExportZarazConfig pkg api ctx rc w)
      (fun _ _ err a => ∀ e, err = some e → a = some e) := by
  rw [lit_empty] at h
  refine ⟨?_, ?_, ?_, ?_, ?_, ?_, ?_, ?_, ?_⟩
  · exact ranOnce_of_run api w _ _ _ _ (GetZarazConfig_run pkg api ctx rc w h _ rfl)
      (fun b err e he => by subst he; exact ⟨rfl, rfl⟩)
  · exact ranOnce_of_run api w _ _ _ _ (UpdateZarazConfig_run pkg api ctx rc params w h _ rfl)
      (fun b err e he => by subst he; rfl)
  · exact ranOnce_of_run api w _ _ _ _ (GetZarazWorkflow_run pkg api ctx rc w h _ rfl)
      (fun b err e he => by subst he; rfl)
  · exact ranOnce_of_run api w _ _ _ _
      (UpdateZarazWorkflow_run pkg api ctx rc workflowToUpdate w h _ rfl)
      (fun b err e he => by subst he; rfl)
  · exact ranOnce_of_run api w _ _ _ _
      (PublishZarazConfig_run pkg api ctx rc description w h _ rfl)
      (fun b err e he => by subst he; rfl)
  · exact ranOnce_of_run api w _ _ _ _
      (GetZarazConfigHistory_run pkg api ctx rc limit offset w h _ rfl)
      (fun b err e he => by subst he; exact ⟨rfl, rfl⟩)
  · exact ranOnce_of_run api w _ _ _ _
      (GetZarazConfigHistoryDiff_run pkg api ctx rc limit offset configIds w h _ rfl)
      (fun b err e he => by subst he; exact ⟨rfl, rfl⟩)
  · exact ranOnce_of_run api w _ _ _ _ (GetDefaultZarazConfig_run pkg api ctx rc w h _ rfl)
      (fun b err e he => by subst he; exact ⟨rfl, rfl⟩)
  · exact ranOnce_of_run api w _ _
      (fun out => (afterDecode pkg.errUnmarshalError pkg.unmarshalConfig (GoMap.mk [])
        GoMap.nil out).2) _ (ExportZarazConfig_run pkg api ctx rc w h _ rfl)
      (fun b err e he => by subst he; rfl)

/-- Witness of C2: an executor that fails every request with a transport error, zone
`abc123`. -/
theorem executor_error_is_returned_unchanged_witness :
    zoneABC.Identifier ≠ lit "" ∧
    RanOnce (failAPI errTimeout) world0
      (GetZarazConfig testPkg (failAPI errTimeout) 7 zoneABC world0)
      (fun _ _ err a => ∀ e, err = some e → a = (GoMap.mk [], some e) ∧ a.1.len = 0) ∧
    RanOnce (failAPI errTimeout) world0
      (GetZarazConfigHistory testPkg (failAPI errTimeout) 7 zoneABC 2 0 world0)
      (fun _ _ err a => ∀ e, err = some e →
        a = ({ Data := GoSlice.mk [], Count := 0 }, some e) ∧ a.1.Data.len = 0) ∧
    GetZarazConfig testPkg (failAPI errTimeout) 7 zoneABC world0
      = some ((GoMap.mk [], some errTimeout),
          ⟨1, [⟨7, lit "GET", lit "/zones/abc123/settings/zaraz/config", Body.nil⟩]⟩) ∧
    GetZarazWorkflow testPkg (failAPI errTimeout) 7 zoneABC world0
      = some ((lit "", some errTimeout),
          ⟨1, [⟨7, lit "GET", lit "/zones/abc123/settings/zaraz/workflow", Body.nil⟩]⟩) :=
  have hw := executor_error_is_returned_unchanged testPkg (failAPI errTimeout) 7 zoneABC world0
    configDoc (lit "steps") (lit "nightly release") (lit "11,12") 2 0 (by decide)
  ⟨by decide, hw.1, hw.2.2.2.2.2.1, rfl, rfl⟩

/-- Counterexample to C3 as stated. Run one: the executor succeeds with a truncated
document, the decoder rejects it, `GetZarazConfig` returns the wrapped decode error.
Run two: the executor fails with an error that has that same text and wraps that same
cause, and `GetZarazConfig` passes it through. Both runs return the same values, so the
decode failure cannot be told from the executor error. -/
theorem decode_error_can_equal_an_executor_error :
    (okAPI truncatedPayload).exec
        ⟨7, lit "GET", lit "/zones/abc123/settings/zaraz/config", Body.nil⟩ world0.state
      = ((truncatedPayload, none), 1) ∧
    testPkg.unmarshalConfig truncatedPayload GoMap.nil
      = (GoMap.mk [(lit "debugKey", lit "k1")], some errTruncated) ∧
    GetZarazConfig testPkg (okAPI truncatedPayload) 7 zoneABC world0
      = some ((GoMap.mk [], some errMarked),
          ⟨1, [⟨7, lit "GET", lit "/zones/abc123/settings/zaraz/config", Body.nil⟩]⟩) ∧
    (failAPI errMarked).exec
        ⟨7, lit "GET", lit "/zones/abc123/settings/zaraz/config", Body.nil⟩ world0.state
      = (([], some errMarked), 1) ∧
    GetZarazConfig testPkg (failAPI errMarked) 7 zoneABC world0
      = some ((GoMap.mk [], some errMarked),
          ⟨1, [⟨7, lit "GET", lit "/zones/abc123/settings/zaraz/config", Body.nil⟩]⟩) ∧
    GetZarazConfig testPkg (okAPI truncatedPayload) 7 zoneABC world0
      = GetZarazConfig testPkg (failAPI errMarked) 7 zoneABC world0 :=
  ⟨rfl, rfl, rfl, rfl, rfl, rfl⟩

/-- C3, amended. Called with a zone identifier that is not empty, each of the five
decoding operations invokes the executor once; if the executor succeeds with bytes the
decoder rejects with the parse error `p`, leaving whatever value `v` in its target, the
operation returns the empty value (never `v`) and the error `fmt.Errorf` builds:
it unwraps to `p`, its message is `errUnmarshalError`, then `": "`, then the
message of `p`; it differs from `p`, and from every error `e` whose message does not
begin with `errUnmarshalError` and `": "`, in value and in message. -/
theorem decode_error_is_wrapped_with_marker (pkg : Package Any Time)
    (api : API Context Any σ) (ctx : Context) (rc : ResourceContainer)
    (w : World Context Any σ) (configIds : GoString) (limit offset : Int)
    (h : rc.Identifier ≠ lit "") :
    (RanOnce api w (GetZarazConfig pkg api ctx rc w)
      (fun _ b err a => err = none → ∀ v p, pkg.unmarshalConfig b GoMap.nil = (v, some p) →
        a = (GoMap.mk [],
          some (GoError.wrapError (pkg.errUnmarshalError ++ lit ": " ++ p.Error) p))) ∧
    RanOnce api w (GetZarazConfigHistory pkg api ctx rc limit offset w)
      (fun _ b err a => err = none → ∀ v p,
        pkg.unmarshalHistory b { Data := GoSlice.nil, Count := 0 } = (v, some p) →
        a = ({ Data := GoSlice.mk [], Count := 0 },
          some (GoError.wrapError (pkg.errUnmarshalError ++ lit ": " ++ p.Error) p))) ∧
    RanOnce api w (GetZarazConfigHistoryDiff pkg api ctx rc limit offset configIds w)
      (fun _ b err a => err = none → ∀ v p, pkg.unmarshalConfig b GoMap.nil = (v, some p) →
        a = (GoMap.mk [],
          some (GoError.wrapError (pkg.errUnmarshalError ++ lit ": " ++ p.Error) p))) ∧
    RanOnce api w (GetDefaultZarazConfig pkg api ctx rc w)
      (fun _ b err a => err = none → ∀ v p, pkg.unmarshalConfig b GoMap.nil = (v, some p) →
        a = (GoMap.mk [],
          some (GoError.wrapError (pkg.errUnmarshalError ++ lit ": " ++ p.Error) p))) ∧
    RanOnce api w (ExportZarazConfig pkg api ctx rc w)
      (fun _ b err a => err = none → ∀ v p, pkg.unmarshalConfig b GoMap.nil = (v, some p) →
        a = some (GoError.wrapError (pkg.errUnmarshalError ++ lit ": " ++ p.Error) p))) ∧
    ∀ p : GoError,
      (GoError.wrapError (pkg.errUnmarshalError ++ lit ": " ++ p.Error) p).Unwrap = some p ∧
      (GoError.wrapError (pkg.errUnmarshalError ++ lit ": " ++ p.Error) p).Error
        = pkg.errUnmarshalError ++ lit ": " ++ p.Error ∧
      GoError.wrapError (pkg.errUnmarshalError ++ lit ": " ++ p.Error) p ≠ p ∧
      ∀ e : GoError, ¬ (pkg.errUnmarshalError ++ lit ": ") <+: e.Error →
        GoError.wrapError (pkg.errUnmarshalError ++ lit ": " ++ p.Error) p ≠ e ∧
        (GoError.wrapError (pkg.errUnmarshalError ++ lit ": " ++ p.Error) p).Error
          ≠ e.Error := by
  rw [lit_empty] at h
  refine ⟨⟨?_, ?_, ?_, ?_, ?_⟩, ?_⟩
  · exact ranOnce_of_run api w _ _ _ _ (GetZarazConfig_run pkg api ctx rc w h _ rfl)
      (fun b err he v p hd => by subst he; exact afterDecode_bad _ _ _ _ b v p hd)
  · exact ranOnce_of_run api w _ _ _ _
      (GetZarazConfigHistory_run pkg api ctx rc limit offset w h _ rfl)
      (fun b err he v p hd => by subst he; exact afterDecode_bad _ _ _ _ b v p hd)
  · exact ranOnce_of_run api w _ _ _ _
      (GetZarazConfigHistoryDiff_run pkg api ctx rc limit offset configIds w h _ rfl)
      (fun b err he v p hd => by subst he; exact afterDecode_bad _ _ _ _ b v p hd)
  · exact ranOnce_of_run api w _ _ _ _ (GetDefaultZarazConfig_run pkg api ctx rc w h _ rfl)
      (fun b err he v p hd => by subst he; exact afterDecode_bad _ _ _ _ b v p hd)
  · exact ranOnce_of_run api w _ _
      (fun out => (afterDecode pkg.errUnmarshalError pkg.unmarshalConfig (GoMap.mk [])
        GoMap.nil out).2) _ (ExportZarazConfig_run pkg api ctx rc w h _ rfl)
      (fun b err he v p hd => by
        subst he
        exact congrArg Prod.snd (afterDecode_bad _ _ (GoMap.mk []) _ b v p hd))
  · intro p
    refine ⟨rfl, rfl, ?_, ?_⟩
    · intro hp
      have hs := congrArg sizeOf hp
      simp only [GoError.wrapError.sizeOf_spec] at hs
      omega
    · intro e he
      have hm : (GoError.wrapError (pkg.errUnmarshalError ++ lit ": " ++ p.Error) p).Error
          ≠ e.Error := by
        intro heq
        apply he
        rw [← heq]
        exact ⟨p.Error, rfl⟩
      exact ⟨fun heq => hm (congrArg GoError.Error heq), hm⟩

/-- Witness of C3 amended: the executor answers with a truncated document, the decoder
double rejects it after filling in one entry; `GetZarazConfig` returns the empty map and
the wrapped error, which differs from the transport error `errTimeout`. -/
theorem decode_error_is_wrapped_with_marker_witness :
    zoneABC.Identifier ≠ lit "" ∧
    RanOnce (okAPI truncatedPayload) world0
      (GetZarazConfig testPkg (okAPI truncatedPayload) 7 zoneABC world0)
      (fun _ b err a => err = none →
        ∀ v p, testPkg.unmarshalConfig b GoMap.nil = (v, some p) →
        a = (GoMap.mk [],
          some (GoError.wrapError (testPkg.errUnmarshalError ++ lit ": " ++ p.Error) p))) ∧
    GetZarazConfig testPkg (okAPI truncatedPayload) 7 zoneABC world0
      = some ((GoMap.mk [], some errMarked),
          ⟨1, [⟨7, lit "GET", lit "/zones/abc123/settings/zaraz/config", Body.nil⟩]⟩) ∧
    errMarked.Unwrap = some errTruncated ∧
    errMarked.Error
      = lit "error unmarshalling the JSON response: unexpected end of JSON input" ∧
    errMarked ≠ errTimeout :=
  have hw := decode_error_is_wrapped_with_marker testPkg (okAPI truncatedPayload) 7 zoneABC
    world0 (lit "11,12") 2 0 (by decide)
  ⟨by decide, hw.1.1, rfl, (hw.2 errTruncated).1, (hw.2 errTruncated).2.1,
    ((hw.2 errTruncated).2.2.2 errTimeout (by decide)).1⟩

/-- C4. Called with a zone identifier `id` that is not empty, each of the seven
operations without query parameters invokes the executor exactly once, with the
caller's context, and with the method, path and body of its row: the path is
`"/zones/" ++ id ++ "/settings/zaraz" ++ suffix`. `UpdateZarazConfig`,
`UpdateZarazWorkflow` and `PublishZarazConfig` return no error exactly when that call
returned none. -/
theorem requests_follow_the_operations_table (pkg : Package Any Time)
    (api : API Context Any σ) (ctx : Context) (rc : ResourceContainer)
    (w : World Context Any σ) (params : UpdateZarazConfigParams Any)
    (workflowToUpdate description : GoString) (h : rc.Identifier ≠ lit "") :
    RanOnce api w (GetZarazConfig pkg api ctx rc w)
      (fun r _ _ _ => r = ⟨ctx, lit "GET",
        lit "/zones/" ++ rc.Identifier ++ lit "/settings/zaraz" ++ lit "/config", Body.nil⟩) ∧
    RanOnce api w (UpdateZarazConfig pkg api ctx rc params w)
      (fun r _ err a => r = ⟨ctx, lit "PUT",
        lit "/zones/" ++ rc.Identifier ++ lit "/settings/zaraz" ++ lit "/config",
        Body.config params⟩ ∧ (a = none ↔ err = none)) ∧
    RanOnce api w (GetZarazWorkflow pkg api ctx rc w)
      (fun r _ _ _ => r = ⟨ctx, lit "GET",
        lit "/zones/" ++ rc.Identifier ++ lit "/settings/zaraz" ++ lit "/workflow",
        Body.nil⟩) ∧
    RanOnce api w (UpdateZarazWorkflow pkg api ctx rc workflowToUpdate w)
      (fun r _ err a => r = ⟨ctx, lit "PUT",
        lit "/zones/" ++ rc.Identifier ++ lit "/settings/zaraz" ++ lit "/workflow",
        Body.text workflowToUpdate⟩ ∧ (a = none ↔ err = none)) ∧
    RanOnce api w (PublishZarazConfig pkg api ctx rc description w)
      (fun r _ err a => r = ⟨ctx, lit "POST",
        lit "/zones/" ++ rc.Identifier ++ lit "/settings/zaraz" ++ lit "/publish",
        Body.text description⟩ ∧ (a = none ↔ err = none)) ∧
    RanOnce api w (GetDefaultZarazConfig pkg api ctx rc w)
      (fun r _ _ _ => r = ⟨ctx, lit "GET",
        lit "/zones/" ++ rc.Identifier ++ lit "/settings/zaraz" ++ lit "/default",
        Body.nil⟩) ∧
    RanOnce api w (ExportZarazConfig pkg api ctx rc w)
      (fun r _ _ _ => r = ⟨ctx, lit "GET",
        lit "/zones/" ++ rc.Identifier ++ lit "/settings/zaraz" ++ lit "/export",
        Body.nil⟩) := by
  rw [lit_empty] at h
  refine ⟨?_, ?_, ?_, ?_, ?_, ?_, ?_⟩
  · exact ranOnce_of_run api w _ _ _ _ (GetZarazConfig_run pkg api ctx rc w h _ rfl)
      (fun _ _ => rfl)
  · exact ranOnce_of_run api w _ _ _ _ (UpdateZarazConfig_run pkg api ctx rc params w h _ rfl)
      (fun _ _ => ⟨rfl, Iff.rfl⟩)
  · exact ranOnce_of_run api w _ _ _ _ (GetZarazWorkflow_run pkg api ctx rc w h _ rfl)
      (fun _ _ => rfl)
  · exact ranOnce_of_run api w _ _ _ _
      (UpdateZarazWorkflow_run pkg api ctx rc workflowToUpdate w h _ rfl)
      (fun _ _ => ⟨rfl, Iff.rfl⟩)
  · exact ranOnce_of_run api w _ _ _ _
      (PublishZarazConfig_run pkg api ctx rc description w h _ rfl)
      (fun _ _ => ⟨rfl, Iff.rfl⟩)
  · exact ranOnce_of_run api w _ _ _ _ (GetDefaultZarazConfig_run pkg api ctx rc w h _ rfl)
      (fun _ _ => rfl)
  · exact ranOnce_of_run api w _ _
      (fun out => (afterDecode pkg.errUnmarshalError pkg.unmarshalConfig (GoMap.mk [])
        GoMap.nil out).2) _ (ExportZarazConfig_run pkg api ctx rc w h _ rfl)
      (fun _ _ => rfl)

/-- Witness of C4: zone `abc123`, `PublishZarazConfig` with the description
`nightly release`, an executor that succeeds: one POST to
`/zones/abc123/settings/zaraz/publish` with that string as body, no error. With an
executor that fails, the error comes back. -/
theorem requests_follow_the_operations_table_witness :
    zoneABC.Identifier ≠ lit "" ∧
    RanOnce (okAPI []) world0
      (PublishZarazConfig testPkg (okAPI []) 7 zoneABC (lit "nightly release") world0)
      (fun r _ err a => r = ⟨7, lit "POST",
        lit "/zones/" ++ zoneABC.Identifier ++ lit "/settings/zaraz" ++ lit "/publish",
        Body.text (lit "nightly release")⟩ ∧ (a = none ↔ err = none)) ∧
    PublishZarazConfig testPkg (okAPI []) 7 zoneABC (lit "nightly release") world0
      = some (none, ⟨1, [⟨7, lit "POST", lit "/zones/abc123/settings/zaraz/publish",
          Body.text (lit "nightly release")⟩]⟩) ∧
    PublishZarazConfig testPkg (failAPI errTimeout) 7 zoneABC (lit "nightly release") world0
      = some (some errTimeout, ⟨1, [⟨7, lit "POST", lit "/zones/abc123/settings/zaraz/publish",
          Body.text (lit "nightly release")⟩]⟩) ∧
    UpdateZarazConfig testPkg (okAPI []) 7 zoneABC configDoc world0
      = some (none, ⟨1, [⟨7, lit "PUT", lit "/zones/abc123/settings/zaraz/config",
          Body.config configDoc⟩]⟩) :=
  have hw := requests_follow_the_operations_table testPkg (okAPI []) 7 zoneABC world0
    configDoc (lit "steps") (lit "nightly release") (by decide)
  ⟨by decide, hw.2.2.2.2.1, rfl, rfl, rfl⟩

/-- C5. Called with a zone identifier that is not empty, `GetZarazConfig`,
`GetDefaultZarazConfig`, `GetZarazConfigHistory` and `GetZarazConfigHistoryDiff` invoke
the executor once; if it succeeds with bytes `b` and the decoder turns `b` into the
value `v` without error, the operation returns `v` itself and no error. So
`GetZarazConfig` returns the document `doc` whenever the response is an encoding of
`doc` that the decoder decodes back to `doc`, and `GetZarazConfigHistory` returns the
`Count` and the `Data`, in order, that the decoder read from the response, whatever
`limit` and `offset` are. -/
theorem decoded_value_is_returned_unmodified (pkg : Package Any Time)
    (api : API Context Any σ) (ctx : Context) (rc : ResourceContainer)
    (w : World Context Any σ) (configIds : GoString) (limit offset : Int)
    (h : rc.Identifier ≠ lit "") :
    RanOnce api w (GetZarazConfig pkg api ctx rc w)
      (fun _ b err a => err = none →
        ∀ v, pkg.unmarshalConfig b GoMap.nil = (v, none) → a = (v, none)) ∧
    RanOnce api w (GetDefaultZarazConfig pkg api ctx rc w)
      (fun _ b err a => err = none →
        ∀ v, pkg.unmarshalConfig b GoMap.nil = (v, none) → a = (v, none)) ∧
    RanOnce api w (GetZarazConfigHistory pkg api ctx rc limit offset w)
      (fun _ b err a => err = none →
        ∀ v, pkg.unmarshalHistory b { Data := GoSlice.nil, Count := 0 } = (v, none) →
          a = (v, none) ∧ a.1.Count = v.Count ∧ a.1.Data.toList = v.Data.toList) ∧
    RanOnce api w (GetZarazConfigHistoryDiff pkg api ctx rc limit offset configIds w)
      (fun _ b err a => err = none →
        ∀ v, pkg.unmarshalConfig b GoMap.nil = (v, none) → a = (v, none)) ∧
    ∀ (marshal : ZarazConfig Any → Bytes) (doc : ZarazConfig Any),
      pkg.unmarshalConfig (marshal doc) GoMap.nil = (doc, none) →
      RanOnce api w (GetZarazConfig pkg api ctx rc w)
        (fun _ b err a => err = none → b = marshal doc → a = (doc, none)) := by
  rw [lit_empty] at h
  refine ⟨?_, ?_, ?_, ?_, ?_⟩
  · exact ranOnce_of_run api w _ _ _ _ (GetZarazConfig_run pkg api ctx rc w h _ rfl)
      (fun b err he v hd => by subst he; exact afterDecode_ok _ _ _ _ b v hd)
  · exact ranOnce_of_run api w _ _ _ _ (GetDefaultZarazConfig_run pkg api ctx rc w h _ rfl)
      (fun b err he v hd => by subst he; exact afterDecode_ok _ _ _ _ b v hd)
  · exact ranOnce_of_run api w _ _ _ _
      (GetZarazConfigHistory_run pkg api ctx rc limit offset w h _ rfl)
      (fun b err he v hd => by
        subst he
        rw [afterDecode_ok _ _ _ _ b v hd]
        exact ⟨rfl, rfl, rfl⟩)
  · exact ranOnce_of_run api w _ _ _ _
      (GetZarazConfigHistoryDiff_run pkg api ctx rc limit offset configIds w h _ rfl)
      (fun b err he v hd => by subst he; exact afterDecode_ok _ _ _ _ b v hd)
  · intro marshal doc hd
    exact ranOnce_of_run api w _ _ _ _ (GetZarazConfig_run pkg api ctx rc w h _ rfl)
      (fun b err he hb => by subst he; subst hb; exact afterDecode_ok _ _ _ _ _ doc hd)

/-- Witness of C5: `GetZarazConfig` on a response that encodes `configDoc` returns
`configDoc`; `GetZarazConfigHistory` with `limit` 2 and `offset` 0 on a response with
three entries and total three returns the three entries in order and the count 3. -/
theorem decoded_value_is_returned_unmodified_witness :
    zoneABC.Identifier ≠ lit "" ∧
    RanOnce (okAPI configPayload) world0
      (GetZarazConfig testPkg (okAPI configPayload) 7 zoneABC world0)
      (fun _ b err a => err = none →
        ∀ v, testPkg.unmarshalConfig b GoMap.nil = (v, none) → a = (v, none)) ∧
    RanOnce (okAPI historyPayload) world0
      (GetZarazConfigHistory testPkg (okAPI historyPayload) 7 zoneABC 2 0 world0)
      (fun _ b err a => err = none →
        ∀ v, testPkg.unmarshalHistory b { Data := GoSlice.nil, Count := 0 } = (v, none) →
          a = (v, none) ∧ a.1.Count = v.Count ∧ a.1.Data.toList = v.Data.toList) ∧
    GetZarazConfig testPkg (okAPI configPayload) 7 zoneABC world0
      = some ((configDoc, none),
          ⟨1, [⟨7, lit "GET", lit "/zones/abc123/settings/zaraz/config", Body.nil⟩]⟩) ∧
    GetZarazConfigHistory testPkg (okAPI historyPayload) 7 zoneABC 2 0 world0
      = some ((historyPage, none),
          ⟨1, [⟨7, lit "POST", lit "/zones/abc123/settings/zaraz/history?limit=2&offset=0",
            Body.nil⟩]⟩) ∧
    historyPage.Count = 3 ∧ (historyPage.Data.toList.map ZarazConfigRow.ID) = [12, 11, 10] :=
  have hc := decoded_value_is_returned_unmodified testPkg (okAPI configPayload) 7 zoneABC
    world0 (lit "11,12") 2 0 (by decide)
  have hh := decoded_value_is_returned_unmodified testPkg (okAPI historyPayload) 7 zoneABC
    world0 (lit "11,12") 2 0 (by decide)
  ⟨by decide, hc.1, hh.2.2.1, rfl, rfl, rfl, rfl⟩

/-- C6. `getEndpointVersion` is defined on every version tag: it returns
`"settings/zaraz"` for every tag other than `"v2"`, among them `"v1"`, the empty string
and tags it does not know, and it returns `"settings/zaraz/v2"` for the tag `"v2"` and
for no other tag. -/
theorem getEndpointVersion_defaults_to_v1 (version : GoString) :
    (version ≠ lit "v2" → getEndpointVersion version = lit "settings/zaraz") ∧
    (getEndpointVersion version = lit "settings/zaraz/v2" ↔ version = lit "v2") ∧
    (getEndpointVersion version = lit "settings/zaraz" ∨
      getEndpointVersion version = lit "settings/zaraz/v2") ∧
    getEndpointVersion (lit "v1") = lit "settings/zaraz" ∧
    getEndpointVersion (lit "") = lit "settings/zaraz" ∧
    getEndpointVersion (lit "v2") = lit "settings/zaraz/v2" := by
  refine ⟨?_, ?_, ?_, by decide, by decide, by decide⟩
  · intro hv
    unfold getEndpointVersion
    rw [if_neg hv]
  · constructor
    · intro hg
      by_contra hv
      unfold getEndpointVersion at hg
      rw [if_neg hv] at hg
      exact absurd hg (by decide)
    · intro hv
      unfold getEndpointVersion
      rw [if_pos hv]
  · unfold getEndpointVersion
    by_cases hv : version = lit "v2"
    · rw [if_pos hv]; exact Or.inr rfl
    · rw [if_neg hv]; exact Or.inl rfl

/-- Witness of C6: the tag `"v3"`, which the function does not know, and the tag `"V2"`
in capitals resolve to the v1 segment. -/
theorem getEndpointVersion_defaults_to_v1_witness :
    lit "v3" ≠ lit "v2" ∧ getEndpointVersion (lit "v3") = lit "settings/zaraz" ∧
    lit "V2" ≠ lit "v2" ∧ getEndpointVersion (lit "V2") = lit "settings/zaraz" :=
  ⟨by decide, (getEndpointVersion_defaults_to_v1 (lit "v3")).1 (by decide),
    by decide, (getEndpointVersion_defaults_to_v1 (lit "V2")).1 (by decide)⟩

/-- C7. Called with a zone identifier that is not empty, `GetZarazWorkflow` invokes
the executor once and returns the error of that call and no other; if the call
succeeds with the bytes `b`, it returns the string made of exactly the bytes `b` and no
error, whatever `b` is and whatever the decoders of the package would make of `b`. -/
theorem workflow_is_returned_verbatim (pkg : Package Any Time)
    (api : API Context Any σ) (ctx : Context) (rc : ResourceContainer)
    (w : World Context Any σ) (h : rc.Identifier ≠ lit "") :
    RanOnce api w (GetZarazWorkflow pkg api ctx rc w)
      (fun _ b err a => a.2 = err ∧ (err = none → a = (string b, none) ∧ a.1 = b)) := by
  rw [lit_empty] at h
  exact ranOnce_of_run api w _ _ _ _ (GetZarazWorkflow_run pkg api ctx rc w h _ rfl)
    (fun b err => by
      cases err with
      | none => exact ⟨rfl, fun _ => ⟨rfl, rfl⟩⟩
      | some e => exact ⟨rfl, fun he => absurd he (by simp)⟩)

/-- Witness of C7: a truncated JSON document, which the decoder double rejects, and the
empty response are returned as they are, with no error. -/
theorem workflow_is_returned_verbatim_witness :
    zoneABC.Identifier ≠ lit "" ∧
    RanOnce (okAPI truncatedPayload) world0
      (GetZarazWorkflow testPkg (okAPI truncatedPayload) 7 zoneABC world0)
      (fun _ b err a => a.2 = err ∧ (err = none → a = (string b, none) ∧ a.1 = b)) ∧
    (testPkg.unmarshalConfig truncatedPayload GoMap.nil).2 = some errTruncated ∧
    GetZarazWorkflow testPkg (okAPI truncatedPayload) 7 zoneABC world0
      = some ((truncatedPayload, none),
          ⟨1, [⟨7, lit "GET", lit "/zones/abc123/settings/zaraz/workflow", Body.nil⟩]⟩) ∧
    GetZarazWorkflow testPkg (okAPI []) 7 zoneABC world0
      = some (([], none),
          ⟨1, [⟨7, lit "GET", lit "/zones/abc123/settings/zaraz/workflow", Body.nil⟩]⟩) :=
  ⟨by decide, workflow_is_returned_verbatim testPkg (okAPI truncatedPayload) 7 zoneABC world0
    (by decide), rfl, rfl, rfl⟩

/-- C8. Called with a zone identifier that is not empty, `ExportZarazConfig` invokes
the executor once and returns no error if and only if that call succeeds and the
decoder accepts the response as a configuration map; when the call succeeds and the
decoder rejects the response with `p`, it returns the error that wraps `p` under the
`errUnmarshalError` marker. The decoded map is not part of what it returns. -/
theorem export_succeeds_iff_response_decodes (pkg : Package Any Time)
    (api : API Context Any σ) (ctx : Context) (rc : ResourceContainer)
    (w : World Context Any σ) (h : rc.Identifier ≠ lit "") :
    RanOnce api w (ExportZarazConfig pkg api ctx rc w)
      (fun _ b err a =>
        (a = none ↔ err = none ∧ (pkg.unmarshalConfig b GoMap.nil).2 = none) ∧
        (err = none → ∀ p, (pkg.unmarshalConfig b GoMap.nil).2 = some p →
          a = some (GoError.wrapError (pkg.errUnmarshalError ++ lit ": " ++ p.Error) p))) := by
  rw [lit_empty] at h
  refine ranOnce_of_run api w _ _
    (fun out => (afterDecode pkg.errUnmarshalError pkg.unmarshalConfig (GoMap.mk [])
      GoMap.nil out).2) _ (ExportZarazConfig_run pkg api ctx rc w h _ rfl) ?_
  intro b err
  cases err with
  | some e =>
    refine ⟨⟨fun ha => ?_, fun hb => ?_⟩, fun he => ?_⟩
    · simp only [afterDecode_fail] at ha
      exact absurd ha (by simp)
    · exact absurd hb.1 (by simp)
    · exact absurd he (by simp)
  | none =>
    rcases hd : pkg.unmarshalConfig b GoMap.nil with ⟨v, _ | p⟩
    · have hr := afterDecode_ok pkg.errUnmarshalError pkg.unmarshalConfig (GoMap.mk [])
        GoMap.nil b v hd
      refine ⟨⟨fun _ => ⟨rfl, rfl⟩, fun _ => ?_⟩, fun _ q hq => ?_⟩
      · simp only [hr]
      · exact absurd hq (by simp)
    · have hr := afterDecode_bad pkg.errUnmarshalError pkg.unmarshalConfig (GoMap.mk [])
        GoMap.nil b v p hd
      refine ⟨⟨fun ha => ?_, fun hb => ?_⟩, fun _ q hq => ?_⟩
      · simp only [hr] at ha
        exact absurd ha (by simp)
      · exact absurd hb.2 (by simp)
      · simp only [Option.some.injEq] at hq
        subst hq
        simp only [hr]

/-- Witness of C8: the export of a well-formed document succeeds, the export of a
truncated one fails with the wrapped decode error, and a failed call fails with the
error of the executor. -/
theorem export_succeeds_iff_response_decodes_witness :
    zoneABC.Identifier ≠ lit "" ∧
    RanOnce (okAPI truncatedPayload) world0
      (ExportZarazConfig testPkg (okAPI truncatedPayload) 7 zoneABC world0)
      (fun _ b err a =>
        (a = none ↔ err = none ∧ (testPkg.unmarshalConfig b GoMap.nil).2 = none) ∧
        (err = none → ∀ p, (testPkg.unmarshalConfig b GoMap.nil).2 = some p →
          a = some (GoError.wrapError (testPkg.errUnmarshalError ++ lit ": " ++ p.Error)
            p))) ∧
    ExportZarazConfig testPkg (okAPI configPayload) 7 zoneABC world0
      = some (none,
          ⟨1, [⟨7, lit "GET", lit "/zones/abc123/settings/zaraz/export", Body.nil⟩]⟩) ∧
    ExportZarazConfig testPkg (okAPI truncatedPayload) 7 zoneABC world0
      = some (some errMarked,
          ⟨1, [⟨7, lit "GET", lit "/zones/abc123/settings/zaraz/export", Body.nil⟩]⟩) ∧
    ExportZarazConfig testPkg (failAPI errTimeout) 7 zoneABC world0
      = some (some errTimeout,
          ⟨1, [⟨7, lit "GET", lit "/zones/abc123/settings/zaraz/export", Body.nil⟩]⟩) :=
  ⟨by decide, export_succeeds_iff_response_decodes testPkg (okAPI truncatedPayload) 7 zoneABC
    world0 (by decide), rfl, rfl, rfl⟩

/-- C9. Called with a zone identifier `id` that is not empty and any `limit` and
`offset` (every `int64` is an integer), `GetZarazConfigHistory` invokes the executor
exactly once: a POST without body to
`"/zones/" ++ id ++ "/settings/zaraz/history?limit=" ++ dec limit ++ "&offset=" ++ dec offset`,
`dec` the signed decimal rendering. What it returns is decided by that call and the
decoder alone: the error of the call if it failed, the decoded page and no error if the
decoder accepted the response. -/
theorem history_request_is_not_validated (pkg : Package Any Time)
    (api : API Context Any σ) (ctx : Context) (rc : ResourceContainer)
    (w : World Context Any σ) (limit offset : Int) (h : rc.Identifier ≠ lit "") :
    RanOnce api w (GetZarazConfigHistory pkg api ctx rc limit offset w)
      (fun r b err a =>
        r = ⟨ctx, lit "POST",
          lit "/zones/" ++ rc.Identifier ++ lit "/settings/zaraz/history?limit="
            ++ formatInt limit ++ lit "&offset=" ++ formatInt offset, Body.nil⟩ ∧
        (∀ e, err = some e → a.2 = some e) ∧
        (err = none → ∀ v,
          pkg.unmarshalHistory b { Data := GoSlice.nil, Count := 0 } = (v, none) →
          a = (v, none))) := by
  rw [lit_empty] at h
  exact ranOnce_of_run api w _ _ _ _
    (GetZarazConfigHistory_run pkg api ctx rc limit offset w h _ rfl)
    (fun b err => ⟨rfl, fun e he => by subst he; rfl,
      fun he v hd => by subst he; exact afterDecode_ok _ _ _ _ b v hd⟩)

/-- Witness of C9: the least and the greatest `int64`, and zero with a negative
offset. -/
theorem history_request_is_not_validated_witness :
    zoneABC.Identifier ≠ lit "" ∧
    RanOnce (okAPI historyPayload) world0
      (GetZarazConfigHistory testPkg (okAPI historyPayload) 7 zoneABC
        (-9223372036854775808) 9223372036854775807 world0)
      (fun r b err a =>
        r = ⟨7, lit "POST",
          lit "/zones/" ++ zoneABC.Identifier ++ lit "/settings/zaraz/history?limit="
            ++ formatInt (-9223372036854775808) ++ lit "&offset="
            ++ formatInt 9223372036854775807, Body.nil⟩ ∧
        (∀ e, err = some e → a.2 = some e) ∧
        (err = none → ∀ v,
          testPkg.unmarshalHistory b { Data := GoSlice.nil, Count := 0 } = (v, none) →
          a = (v, none))) ∧
    GetZarazConfigHistory testPkg (okAPI historyPayload) 7 zoneABC
        (-9223372036854775808) 9223372036854775807 world0
      = some ((historyPage, none), ⟨1, [⟨7, lit "POST",
          lit "/zones/abc123/settings/zaraz/history?limit=-9223372036854775808&offset=9223372036854775807",
          Body.nil⟩]⟩) ∧
    GetZarazConfigHistory testPkg (okAPI historyPayload) 7 zoneABC 0 (-5) world0
      = some ((historyPage, none), ⟨1, [⟨7, lit "POST",
          lit "/zones/abc123/settings/zaraz/history?limit=0&offset=-5", Body.nil⟩]⟩) :=
  ⟨by decide, history_request_is_not_validated testPkg (okAPI historyPayload) 7 zoneABC world0
    (-9223372036854775808) 9223372036854775807 (by decide), rfl, rfl⟩

/-- C10. Called with a zone identifier `id` that is not empty, `GetZarazConfigHistoryDiff`
invokes the executor exactly once: a POST without body to
`"/zones/" ++ id ++ "/settings/zaraz/history/configs?ids=" ++ configIds`, with
`configIds` as the caller gave it. `limit` and `offset` play no part: calls that differ
only in them are the same run, with the same request, result, error and world. -/
theorem history_diff_ignores_limit_and_offset (pkg : Package Any Time)
    (api : API Context Any σ) (ctx : Context) (rc : ResourceContainer)
    (w : World Context Any σ) (limit offset : Int) (configIds : GoString)
    (h : rc.Identifier ≠ lit "") :
    RanOnce api w (GetZarazConfigHistoryDiff pkg api ctx rc limit offset configIds w)
      (fun r _ _ _ => r = ⟨ctx, lit "POST",
        lit "/zones/" ++ rc.Identifier ++ lit "/settings/zaraz/history/configs?ids="
          ++ configIds, Body.nil⟩) ∧
    ∀ limit2 offset2 : Int,
      GetZarazConfigHistoryDiff pkg api ctx rc limit2 offset2 configIds w
        = GetZarazConfigHistoryDiff pkg api ctx rc limit offset configIds w := by
  rw [lit_empty] at h
  exact ⟨ranOnce_of_run api w _ _ _ _
    (GetZarazConfigHistoryDiff_run pkg api ctx rc limit offset configIds w h _ rfl)
    (fun _ _ => rfl), fun _ _ => rfl⟩

/-- Witness of C10: identifiers that hold a space, an ampersand and a slash go into the
path as they are; another `limit` and `offset` give the same run. -/
theorem history_diff_ignores_limit_and_offset_witness :
    zoneABC.Identifier ≠ lit "" ∧
    RanOnce (okAPI configPayload) world0
      (GetZarazConfigHistoryDiff testPkg (okAPI configPayload) 7 zoneABC 2 0 (lit "11, 12&x=/y")
        world0)
      (fun r _ _ _ => r = ⟨7, lit "POST",
        lit "/zones/" ++ zoneABC.Identifier ++ lit "/settings/zaraz/history/configs?ids="
          ++ lit "11, 12&x=/y", Body.nil⟩) ∧
    GetZarazConfigHistoryDiff testPkg (okAPI configPayload) 7 zoneABC (-1) 500 (lit "11, 12&x=/y")
        world0
      = GetZarazConfigHistoryDiff testPkg (okAPI configPayload) 7 zoneABC 2 0 (lit "11, 12&x=/y")
        world0 ∧
    GetZarazConfigHistoryDiff testPkg (okAPI configPayload) 7 zoneABC 2 0 (lit "11, 12&x=/y")
        world0
      = some ((configDoc, none), ⟨1, [⟨7, lit "POST",
          lit "/zones/abc123/settings/zaraz/history/configs?ids=11, 12&x=/y", Body.nil⟩]⟩) :=
  have hw := history_diff_ignores_limit_and_offset testPkg (okAPI configPayload) 7 zoneABC
    world0 2 0 (lit "11, 12&x=/y") (by decide)
  ⟨by decide, hw.1, hw.2 (-1) 500, rfl⟩

end Claims

end Zaraz
